import Mathlib

/-!
Verification of the wisp-engine asset pipeline tools.

Shallow embedding of the Python tools under `tools/`:
`wisp_builder.py`, `wisp_verifier.py`, `png_to_spr_standalone.py`,
`wisp_palette_converter.py`, `wisp_rom_builder.py`, `wisp_rom_builder_v2.py`.

Bytes and machine integers are modelled as `Nat` with explicit `% 2^w`
reductions where the Python `struct` packing truncates; byte strings are
`List Nat`; Python exceptions become `Option`/`Except` results.
-/

namespace Wisp

/-- Little-endian encoding of a 16-bit value (`struct.pack` format `H`). -/
def u16le (n : Nat) : List Nat := [n % 256, n / 256 % 256]

/-- Little-endian encoding of a 32-bit value (`struct.pack` formats `I`/`L`). -/
def u32le (n : Nat) : List Nat :=
  [n % 256, n / 256 % 256, n / 65536 % 256, n / 16777216 % 256]

/-! ## Run-length encoding of the depth channel

From `png_to_spr_standalone.compile_png_to_spr` (lines 203-217), identical code
in `wisp_builder.compile_png_to_sprite` (lines 242-256): a scan holding the
current run `(current_depth, run_length)` and the runs emitted so far, with the
run length capped at 65535. -/

/-- One iteration of the RLE loop body: accumulator is
`(depth_runs, current_depth, run_length)`, mirroring
`if depth_data[i] == current_depth and run_length < 65535: ... else: ...`. -/
def rleStep (acc : List (Nat × Nat) × Nat × Nat) (x : Nat) :
    List (Nat × Nat) × Nat × Nat :=
  if x = acc.2.1 ∧ acc.2.2 < 65535 then (acc.1, acc.2.1, acc.2.2 + 1)
  else (acc.1 ++ [(acc.2.1, acc.2.2)], x, 1)

/-- The full RLE encoder over a depth sequence.  The Python raises `IndexError`
on an empty sequence (`depth_data[0]`); the `[]` case here is never reached by
the source and returns `[]`. -/
def rleEncode : List Nat → List (Nat × Nat)
  | [] => []
  | x :: xs =>
    let s := xs.foldl rleStep ([], x, 1)
    s.1 ++ [(s.2.1, s.2.2)]

/-- Decoding a run sequence: each `(depthValue, runLength)` pair expands to
`runLength` copies of `depthValue`, in order. -/
def rleDecode (runs : List (Nat × Nat)) : List Nat :=
  runs.foldr (fun r acc => List.replicate r.2 r.1 ++ acc) []

/-- Sum of the run lengths of a run sequence. -/
def sumRuns (runs : List (Nat × Nat)) : Nat :=
  runs.foldr (fun r acc => r.2 + acc) 0

theorem rleDecode_nil : rleDecode [] = [] := rfl

theorem rleDecode_cons (r : Nat × Nat) (rs : List (Nat × Nat)) :
    rleDecode (r :: rs) = List.replicate r.2 r.1 ++ rleDecode rs := rfl

theorem rleDecode_append (rs us : List (Nat × Nat)) :
    rleDecode (rs ++ us) = rleDecode rs ++ rleDecode us := by
  induction rs with
  | nil => simp [rleDecode]
  | cons r rs ih => simp [rleDecode_cons, ih, List.append_assoc]

theorem sumRuns_eq_length_decode (rs : List (Nat × Nat)) :
    sumRuns rs = (rleDecode rs).length := by
  induction rs with
  | nil => rfl
  | cons r rs ih =>
    show r.2 + sumRuns rs = _
    rw [rleDecode_cons, List.length_append, List.length_replicate, ih]

/-- Invariant of the RLE fold: decoding the accumulated runs together with the
in-progress run always yields the input consumed so far, and the in-progress
run stays nonempty. -/
theorem rleFold_decode (xs : List Nat) : ∀ (runs : List (Nat × Nat)) (cur len : Nat),
    1 ≤ len →
    rleDecode ((xs.foldl rleStep (runs, cur, len)).1 ++
        [((xs.foldl rleStep (runs, cur, len)).2.1, (xs.foldl rleStep (runs, cur, len)).2.2)]) =
      rleDecode (runs ++ [(cur, len)]) ++ xs ∧
    1 ≤ (xs.foldl rleStep (runs, cur, len)).2.2 := by
  induction xs with
  | nil => intro runs cur len hlen; exact ⟨by simp, hlen⟩
  | cons x xs ih =>
    intro runs cur len hlen
    show rleDecode (((x :: xs).foldl rleStep (runs, cur, len)).1 ++ _) = _ ∧ _
    rw [List.foldl_cons]
    by_cases hx : x = cur ∧ len < 65535
    · have hstep : rleStep (runs, cur, len) x = (runs, cur, len + 1) := by
        simp [rleStep, hx]
      rw [hstep]
      obtain ⟨h1, h2⟩ := ih runs cur (len + 1) (by omega)
      refine ⟨?_, h2⟩
      rw [h1]
      simp [rleDecode_append, rleDecode_cons, rleDecode_nil,
        List.replicate_succ' len cur, hx.1, List.append_assoc]
    · have hstep : rleStep (runs, cur, len) x = (runs ++ [(cur, len)], x, 1) := by
        simp only [rleStep]
        rw [if_neg hx]
      rw [hstep]
      obtain ⟨h1, h2⟩ := ih (runs ++ [(cur, len)]) x 1 (by omega)
      refine ⟨?_, h2⟩
      rw [h1]
      simp [rleDecode_append, rleDecode_cons, rleDecode_nil, List.append_assoc]

/-- C3. For every non-empty per-pixel depth sequence of length `width*height`,
the run lengths produced by the RLE encoder sum exactly to `width*height`, and
decoding the run sequence (repeating each `depthValue` `runLength` times, in
order) reproduces the original depth sequence exactly. -/
theorem c3_rle_roundtrip (l : List Nat) (width height : Nat)
    (hlen : l.length = width * height) (hne : l ≠ []) :
    rleDecode (rleEncode l) = l ∧ sumRuns (rleEncode l) = width * height := by
  match l, hne with
  | x :: xs, _ =>
    have hdec : rleDecode (rleEncode (x :: xs)) = x :: xs := by
      show rleDecode ((xs.foldl rleStep ([], x, 1)).1 ++ _) = _
      rw [(rleFold_decode xs [] x 1 (by omega)).1]
      simp [rleDecode_cons, rleDecode_nil, rleDecode_append]
    refine ⟨hdec, ?_⟩
    rw [sumRuns_eq_length_decode, hdec, hlen]

/-- Witness for C3 at the spec's scenario sequence `[6,6,6,4,4,7]` (2×3). -/
theorem c3_rle_roundtrip_witness :
    rleDecode (rleEncode [6, 6, 6, 4, 4, 7]) = [6, 6, 6, 4, 4, 7] ∧
      sumRuns (rleEncode [6, 6, 6, 4, 4, 7]) = 2 * 3 :=
  c3_rle_roundtrip [6, 6, 6, 4, 4, 7] 2 3 (by decide) (by decide)

/-- Adjacency relation holding between consecutive runs in the encoder output:
either the depth values differ, or the earlier run was closed at the 65535
run-length cap. -/
def RleAdj (a b : Nat × Nat) : Prop := a.1 ≠ b.1 ∨ a.2 = 65535

instance : DecidableRel RleAdj := fun a b => by
  unfold RleAdj; infer_instance

/-- Invariant of the RLE fold: the accumulated runs plus the in-progress run
always form an `RleAdj`-chain, and the in-progress length stays ≤ 65535. -/
theorem rleFold_chain (xs : List Nat) : ∀ (runs : List (Nat × Nat)) (cur len : Nat),
    List.Chain' RleAdj (runs ++ [(cur, len)]) → len ≤ 65535 →
    List.Chain' RleAdj ((xs.foldl rleStep (runs, cur, len)).1 ++
        [((xs.foldl rleStep (runs, cur, len)).2.1, (xs.foldl rleStep (runs, cur, len)).2.2)]) ∧
      (xs.foldl rleStep (runs, cur, len)).2.2 ≤ 65535 := by
  induction xs with
  | nil => intro runs cur len hch hle; exact ⟨hch, hle⟩
  | cons x xs ih =>
    intro runs cur len hch hle
    show List.Chain' RleAdj (((x :: xs).foldl rleStep (runs, cur, len)).1 ++ _) ∧ _
    rw [List.foldl_cons]
    by_cases hx : x = cur ∧ len < 65535
    · have hstep : rleStep (runs, cur, len) x = (runs, cur, len + 1) := by
        simp [rleStep, hx]
      rw [hstep]
      refine ih runs cur (len + 1) ?_ (by omega)
      rw [List.chain'_append] at hch ⊢
      refine ⟨hch.1, List.chain'_singleton _, ?_⟩
      intro a ha b hb
      have hb' : b = (cur, len + 1) := by simpa [eq_comm] using hb
      have := hch.2.2 a ha (cur, len) (by simp)
      rcases this with h | h
      · exact Or.inl (by rw [hb']; exact h)
      · exact Or.inr h
    · have hstep : rleStep (runs, cur, len) x = (runs ++ [(cur, len)], x, 1) := by
        simp only [rleStep]
        rw [if_neg hx]
      rw [hstep]
      refine ih (runs ++ [(cur, len)]) x 1 ?_ (by omega)
      rw [List.chain'_append]
      refine ⟨hch, List.chain'_singleton _, ?_⟩
      intro a ha b hb
      have ha' : a = (cur, len) := by
        rw [List.getLast?_concat] at ha
        simpa [eq_comm] using ha
      have hb' : b = (x, 1) := by simpa [eq_comm] using hb
      rw [ha', hb']
      rw [not_and_or] at hx
      rcases hx with h | h
      · exact Or.inl (fun hcx => h (by simpa [RleAdj] using hcx.symm))
      · exact Or.inr (by omega)

/-- C4 (amended). For every nonempty depth sequence, consecutive runs in the
encoder output either carry different depth values or the earlier run was
closed at the 65535 run-length cap; in particular the output is maximal
whenever no run reaches the cap. -/
theorem c4_runs_maximal_up_to_cap (l : List Nat) :
    List.Chain' RleAdj (rleEncode l) := by
  match l with
  | [] => simp [rleEncode]
  | x :: xs =>
    show List.Chain' RleAdj ((xs.foldl rleStep ([], x, 1)).1 ++ _)
    exact (rleFold_chain xs [] x 1 (by simp) (by omega)).1

/-- The RLE fold leaves a same-valued run untouched while the cap is not hit. -/
theorem rleFold_replicate (cur : Nat) : ∀ (m : Nat) (runs : List (Nat × Nat)) (len : Nat),
    len + m ≤ 65535 →
    (List.replicate m cur).foldl rleStep (runs, cur, len) = (runs, cur, len + m) := by
  intro m
  induction m with
  | zero => intro runs len h; rfl
  | succ m ih =>
    intro runs len h
    rw [List.replicate_succ, List.foldl_cons]
    have hstep : rleStep (runs, cur, len) cur = (runs, cur, len + 1) := by
      simp [rleStep]; omega
    rw [hstep, ih runs (len + 1) (by omega)]
    congr 1
    simp
    omega

/-- A maximal run of 65536 equal depth values is split at the 65535 cap. -/
theorem rleEncode_replicate_65536 :
    rleEncode (List.replicate 65536 6) = [(6, 65535), (6, 1)] := by
  have h1 : List.replicate 65536 6 = 6 :: List.replicate 65535 (6 : Nat) := by
    rw [List.replicate_succ]
  have h2 : List.replicate 65535 (6 : Nat) = List.replicate 65534 6 ++ [6] := by
    rw [List.replicate_succ' 65534 6]
  rw [h1]
  show ((List.replicate 65535 (6 : Nat)).foldl rleStep ([], 6, 1)).1 ++ _ = _
  rw [h2, List.foldl_append, rleFold_replicate 6 65534 [] 1 (by omega)]
  have hstep : rleStep ([], 6, 1 + 65534) 6 = ([((6 : Nat), (65535 : Nat))], 6, 1) := by
    simp [rleStep]
  simp [hstep]

/-- Counterexample to C4 as stated: the flat depth sequence of a 256×256 image
(65536 pixels at depth 6) encodes to two adjacent runs with the same depth
value, so the output is not maximal. -/
theorem c4_counterexample :
    rleEncode (List.replicate 65536 6) = [(6, 65535), (6, 1)] ∧
      ¬ List.Chain' (fun a b : Nat × Nat => a.1 ≠ b.1) (rleEncode (List.replicate 65536 6)) := by
  refine ⟨rleEncode_replicate_65536, ?_⟩
  rw [rleEncode_replicate_65536]
  intro h
  exact (List.chain'_cons.mp h).1 rfl

/-! ## Palette converter (`wisp_palette_converter.py`) -/

/-- RGB888 → RGB565 conversion by truncation (`rgb888_to_rgb565`, lines 16-21). -/
def rgb888_to_rgb565 (r g b : Nat) : Nat :=
  (((r >>> 3) &&& 0x1F) <<< 11) ||| (((g >>> 2) &&& 0x3F) <<< 5) ||| ((b >>> 3) &&& 0x1F)

/-- The five reserved sentinel ("magic channel") codes appended to every table. -/
def magic_colors : List Nat := [0x1000, 0x1001, 0x1002, 0x1003, 0x1004]

/-- Grouping of a flat `[r,g,b,r,g,b,...]` palette byte list into complete
triples, dropping a trailing partial triple — mirrors the loop
`for i in range(0, len(palette_data), 3): if i + 2 < len(palette_data): ...`
(lines 146-150). -/
def toTriples : List Nat → List (Nat × Nat × Nat)
  | r :: g :: b :: rest => (r, g, b) :: toTriples rest
  | _ => []

/-- `convert_to_palette` (lines 115-161), starting from the flat RGB palette
byte list produced by PIL (`img.getpalette()` branch): keep the first
`usable_colors` triples, convert each to RGB565, zero-pad to `usable_colors`,
and append the five magic codes. -/
def convert_to_palette (palette : List Nat) (max_colors : Nat) : List Nat :=
  let usable_colors := max_colors - 5
  let palette_data := palette.take (usable_colors * 3)
  let rgb565_palette := (toTriples palette_data).map (fun t => rgb888_to_rgb565 t.1 t.2.1 t.2.2)
  let padded := rgb565_palette ++ List.replicate (usable_colors - rgb565_palette.length) 0
  padded ++ magic_colors

/-- LUT entry for one RGBA pixel: the 50%-alpha cutoff maps transparent pixels
to the sentinel `0x1000`, visible pixels to their RGB565 code (lines 85-91). -/
def lutEntryRGBA (p : Nat × Nat × Nat × Nat) : Nat :=
  if p.2.2.2 ≤ 127 then 0x1000 else rgb888_to_rgb565 p.1 p.2.1 p.2.2.1

/-- Raster scan of a `size`×`size` LUT image skipping the last five positions
of the last row (`if y == size-1 and x >= size-5: continue`). -/
def lutBody (size : Nat) (entry : Nat → Nat → Nat) : List Nat :=
  (List.range size).flatMap (fun y =>
    (List.range size).filterMap (fun x =>
      if y = size - 1 ∧ size - 5 ≤ x then none else some (entry y x)))

/-- `convert_to_lut_64x64` (lines 66-113), RGBA branch: 64×64 raster scan with
the final five positions overwritten by the magic codes. -/
def convert_to_lut_64x64 (pixels : Nat → Nat → Nat × Nat × Nat × Nat) : List Nat :=
  lutBody 64 (fun y x => lutEntryRGBA (pixels y x)) ++ magic_colors

/-- `convert_to_lut_64x64`, RGB branch (no alpha channel, lines 92-106). -/
def convert_to_lut_64x64_rgb (pixels : Nat → Nat → Nat × Nat × Nat) : List Nat :=
  lutBody 64 (fun y x => rgb888_to_rgb565 (pixels y x).1 (pixels y x).2.1 (pixels y x).2.2) ++
    magic_colors

/-- The 32×32 LUT conversion inlined in `main` (lines 303-346), RGBA branch. -/
def convert_to_lut_32x32 (pixels : Nat → Nat → Nat × Nat × Nat × Nat) : List Nat :=
  lutBody 32 (fun y x => lutEntryRGBA (pixels y x)) ++ magic_colors

/-- The 32×32 LUT conversion inlined in `main`, RGB branch (lines 325-339). -/
def convert_to_lut_32x32_rgb (pixels : Nat → Nat → Nat × Nat × Nat) : List Nat :=
  lutBody 32 (fun y x => rgb888_to_rgb565 (pixels y x).1 (pixels y x).2.1 (pixels y x).2.2) ++
    magic_colors

/-- The last five entries of a color table. -/
def lastFive (l : List Nat) : List Nat := l.drop (l.length - 5)

theorem lastFive_append_magic (l : List Nat) : lastFive (l ++ magic_colors) = magic_colors := by
  unfold lastFive magic_colors
  rw [List.length_append]
  show (l ++ _).drop (l.length + 5 - 5) = _
  rw [Nat.add_sub_cancel, List.drop_left]

theorem toTriples_length_le (l : List Nat) : 3 * (toTriples l).length ≤ l.length := by
  match l with
  | r :: g :: b :: rest =>
    have := toTriples_length_le rest
    simp [toTriples]
    omega
  | [] => simp [toTriples]
  | [r] => simp [toTriples]
  | [r, g] => simp [toTriples]

theorem convert_to_palette_length (palette : List Nat) (max_colors : Nat) :
    (convert_to_palette palette max_colors).length = (max_colors - 5) + 5 := by
  unfold convert_to_palette
  have h1 : (toTriples (palette.take ((max_colors - 5) * 3))).length ≤ max_colors - 5 := by
    have h2 := toTriples_length_le (palette.take ((max_colors - 5) * 3))
    have h3 : (palette.take ((max_colors - 5) * 3)).length ≤ (max_colors - 5) * 3 :=
      List.length_take_le _ _
    omega
  have h4 : magic_colors.length = 5 := rfl
  simp only [List.length_append, List.length_replicate, List.length_map, h4]
  omega

/-- C5. Every generated palette table — flat 16/64/256 palette or 32×32/64×64
LUT, with or without alpha — ends in exactly the five sentinel codes
`[0x1000, 0x1001, 0x1002, 0x1003, 0x1004]`, and the regular colors occupy the
preceding slots (for the flat classes, exactly `capacity - 5` of them, giving a
table of exactly the requested capacity). -/
theorem c5_palette_sentinels (palette : List Nat)
    (pxa : Nat → Nat → Nat × Nat × Nat × Nat) (pxr : Nat → Nat → Nat × Nat × Nat) :
    lastFive (convert_to_palette palette 16) = magic_colors ∧
    lastFive (convert_to_palette palette 64) = magic_colors ∧
    lastFive (convert_to_palette palette 256) = magic_colors ∧
    (convert_to_palette palette 16).length = 16 ∧
    (convert_to_palette palette 64).length = 64 ∧
    (convert_to_palette palette 256).length = 256 ∧
    lastFive (convert_to_lut_64x64 pxa) = magic_colors ∧
    lastFive (convert_to_lut_64x64_rgb pxr) = magic_colors ∧
    lastFive (convert_to_lut_32x32 pxa) = magic_colors ∧
    lastFive (convert_to_lut_32x32_rgb pxr) = magic_colors := by
  refine ⟨lastFive_append_magic _, lastFive_append_magic _, lastFive_append_magic _,
    ?_, ?_, ?_,
    lastFive_append_magic _, lastFive_append_magic _, lastFive_append_magic _,
    lastFive_append_magic _⟩ <;>
    rw [convert_to_palette_length]

/-! ## Palette format classification (`analyze_image`, lines 23-64) -/

/-- The output format classes of `analyze_image`. -/
inductive PaletteFormat where
  | LUT_64x64
  | LUT_32x32
  | PALETTE_16
  | PALETTE_64
  | PALETTE_256
  | PALETTE_SMALL
deriving DecidableEq

/-- The dimension/color-count dispatch of `analyze_image` (lines 36-60);
`color_count` stands for the number of distinct colors returned by
`img.getcolors`. -/
def analyze_image (width height color_count : Nat) : PaletteFormat :=
  if width = 64 ∧ height = 64 then .LUT_64x64
  else if width = 32 ∧ height = 32 then .LUT_32x32
  else if width = 16 ∧ height = 1 then .PALETTE_16
  else if width = 64 ∧ height = 1 then .PALETTE_64
  else if width = 256 ∧ height = 1 then .PALETTE_256
  else if width ≤ 16 ∧ height ≤ 16 then .PALETTE_SMALL
  else if color_count ≤ 16 then .PALETTE_16
  else if color_count ≤ 64 then .PALETTE_64
  else if color_count ≤ 256 then .PALETTE_256
  else .LUT_64x64

/-- Modelled from the spec's words for comparison (C7): "classify by counting
distinct colors in the image and pick the smallest class (16/64/256) that fits,
or fall back to the 64×64 LUT class if the image exceeds 256 distinct colors". -/
def specCapacityChoice (color_count : Nat) : PaletteFormat :=
  if color_count ≤ 16 then .PALETTE_16
  else if color_count ≤ 64 then .PALETTE_64
  else if color_count ≤ 256 then .PALETTE_256
  else .LUT_64x64

/-- Counterexample to C7 as stated: an 8×8 image matches no LUT shape and no
1-row flat-palette shape, yet with 3 distinct colors the converter does not
pick the smallest fitting flat class — it classifies it `PALETTE_SMALL`
(a branch the claim omits), which `main` then rejects as unsupported. -/
theorem c7_counterexample :
    ¬(8 = 64 ∧ 8 = 64) ∧ ¬(8 = 32 ∧ 8 = 32) ∧ ¬(8 = 16 ∧ 8 = 1) ∧
      ¬(8 = 64 ∧ 8 = 1) ∧ ¬(8 = 256 ∧ 8 = 1) ∧
      analyze_image 8 8 3 = .PALETTE_SMALL ∧
      analyze_image 8 8 3 ≠ specCapacityChoice 3 := by
  refine ⟨by decide, by decide, by decide, by decide, by decide, by decide, by decide⟩

/-- C7 (amended). For every source image whose dimensions match no known LUT
shape (64×64, 32×32), no known 1-row flat-palette shape (16×1, 64×1, 256×1),
and which is not small (both dimensions ≤ 16, a separate `PALETTE_SMALL`
class), the converter classifies by distinct-color count, choosing the smallest
flat class among 16/64/256 that fits and falling back to the 64×64 LUT class
above 256 distinct colors. -/
theorem c7_capacity_selection (width height color_count : Nat)
    (h1 : ¬(width = 64 ∧ height = 64)) (h2 : ¬(width = 32 ∧ height = 32))
    (h3 : ¬(width = 16 ∧ height = 1)) (h4 : ¬(width = 64 ∧ height = 1))
    (h5 : ¬(width = 256 ∧ height = 1)) (h6 : ¬(width ≤ 16 ∧ height ≤ 16)) :
    analyze_image width height color_count = specCapacityChoice color_count := by
  unfold analyze_image specCapacityChoice
  rw [if_neg h1, if_neg h2, if_neg h3, if_neg h4, if_neg h5, if_neg h6]

/-- Witness for C7 at a 100×2 image with 50 distinct colors. -/
theorem c7_capacity_selection_witness :
    analyze_image 100 2 50 = specCapacityChoice 50 :=
  c7_capacity_selection 100 2 50 (by decide) (by decide) (by decide) (by decide)
    (by decide) (by decide)

/-! ## Bundle builder sprite quantization (`wisp_builder.compile_png_to_sprite`,
lines 210-220) -/

/-- Per-pixel color index assignment of the bundle builder's PNG path:
transparent pixels (alpha < 128) map to 0, visible pixels to the clamped
placeholder quantization `min(255, max(1, ((r>>5)<<5) | ((g>>5)<<2) | (b>>6)))`. -/
def builder_color_index (r g b a : Nat) : Nat :=
  if a < 128 then 0
  else min 255 (max 1 (((r >>> 5) <<< 5) ||| ((g >>> 5) <<< 2) ||| (b >>> 6)))

/-- C10. In the bundle builder's PNG-to-sprite path, every pixel with
alpha < 128 gets color index 0 and every pixel with alpha ≥ 128 gets a color
index in [1, 255]; hence index 0 is emitted only for transparent pixels. -/
theorem c10_transparent_index_zero (r g b a : Nat) :
    (a < 128 → builder_color_index r g b a = 0) ∧
    (128 ≤ a → 1 ≤ builder_color_index r g b a ∧ builder_color_index r g b a ≤ 255) ∧
    (builder_color_index r g b a = 0 → a < 128) := by
  unfold builder_color_index
  by_cases h : a < 128
  · rw [if_pos h]
    exact ⟨fun _ => rfl, fun h128 => absurd h (by omega), fun _ => h⟩
  · rw [if_neg h]
    refine ⟨fun hlt => absurd hlt h, fun _ => ⟨?_, ?_⟩, fun h0 => ?_⟩
    · exact le_min (by omega) (le_max_left 1 _)
    · exact min_le_left 255 _
    · have : 1 ≤ min 255 (max 1 (((r >>> 5) <<< 5) ||| ((g >>> 5) <<< 2) ||| (b >>> 6))) :=
        le_min (by omega) (le_max_left 1 _)
      omega

/-- Witness for C10 at a transparent and an opaque pixel. -/
theorem c10_transparent_index_zero_witness :
    builder_color_index 200 10 30 0 = 0 ∧
      (1 ≤ builder_color_index 255 255 255 255 ∧ builder_color_index 255 255 255 255 ≤ 255) :=
  ⟨(c10_transparent_index_zero 200 10 30 0).1 (by decide),
    (c10_transparent_index_zero 255 255 255 255).2.1 (by decide)⟩

/-! ## Bundle container writer (`wisp_builder.py`) and reader (`wisp_verifier.py`) -/

/-- The 4 magic bytes `b'WISP'`. -/
def wispMagicBytes : List Nat := [87, 73, 83, 80]

/-- A bundle entry record (`ENTRY_STRUCT = '<32sIIBB6s'`). -/
structure WispEntry where
  name : List Nat
  offset : Nat
  size : Nat
  ty : Nat
  flags : Nat
deriving DecidableEq

/-- Entry construction of `collect_assets` (lines 83-93): the name is truncated
to 31 bytes and null-padded to 32, offsets are a running sum of preceding
payload sizes in insertion order. -/
def mkEntries (assets : List (List Nat × List Nat × Nat)) : List WispEntry :=
  (assets.foldl (fun acc asset =>
      (acc.1 ++ [{ name := asset.1.take 31 ++ List.replicate (32 - (asset.1.take 31).length) 0,
                   offset := acc.2, size := asset.2.1.length, ty := asset.2.2, flags := 0 }],
        acc.2 + asset.2.1.length))
    ([], 0)).1

/-- Serialization of one entry record (48 bytes). -/
def entryBytes (e : WispEntry) : List Nat :=
  e.name.take 32 ++ List.replicate (32 - (e.name.take 32).length) 0 ++
    u32le e.offset ++ u32le e.size ++ [e.ty % 256] ++ [e.flags % 256] ++
    List.replicate 6 0

/-- `write_wisp_bundle` (lines 135-154): 12-byte header (magic, version 0x0100,
entry count, config size), then the embedded config, then the 48-byte entry
records, then the concatenated payloads. -/
def write_wisp_bundle (entries : List WispEntry) (payloads : List (List Nat))
    (config_data : List Nat) : List Nat :=
  wispMagicBytes ++ u16le 0x0100 ++ u16le entries.length ++ u32le config_data.length ++
    config_data ++ entries.flatMap entryBytes ++ payloads.flatMap id

/-- Little-endian 16-bit read at a byte position (`struct.unpack('<H', ...)`). -/
def u16At (data : List Nat) (i : Nat) : Nat :=
  data.getD i 0 + 256 * data.getD (i + 1) 0

/-- Little-endian 32-bit read at a byte position (`struct.unpack('<I', ...)`). -/
def u32At (data : List Nat) (i : Nat) : Nat :=
  data.getD i 0 + 256 * data.getD (i + 1) 0 + 65536 * data.getD (i + 2) 0 +
    16777216 * data.getD (i + 3) 0

/-- `bytes.rstrip(b'\x00')`: strip trailing zero bytes. -/
def rstripZero (l : List Nat) : List Nat :=
  (l.reverse.dropWhile (fun c => c == 0)).reverse

/-- The name field of entry `i` as read by `extract_asset` (lines 151-152):
32 bytes at the fixed table offset `16 + 48*i`, trailing nulls stripped. -/
def nameAtEntry (data : List Nat) (i : Nat) : List Nat :=
  rstripZero ((data.drop (16 + 48 * i)).take 32)

/-- The payload slice of entry `i` as read by `extract_asset` (lines 155-159):
offset/size from the entry record, data region assumed to start at
`16 + 48*entry_count`. -/
def payloadAt (data : List Nat) (i : Nat) : List Nat :=
  (data.drop (16 + 48 * u16At data 6 + u32At data (16 + 48 * i + 32))).take
    (u32At data (16 + 48 * i + 36))

/-- The `for i in range(entry_count)` scan of `extract_asset`: returns the
payload of the first entry whose stripped name equals the requested name. -/
def extractLoop (data assetName : List Nat) : Nat → Nat → Option (List Nat)
  | _, 0 => none
  | i, fuel + 1 =>
    if nameAtEntry data i = assetName then some (payloadAt data i)
    else extractLoop data assetName (i + 1) fuel

/-- `extract_asset` (`wisp_verifier.py`, lines 134-168): magic check, then a
linear scan over the entry table assumed to start at byte 16. -/
def extract_asset (data assetName : List Nat) : Option (List Nat) :=
  if data.take 4 = wispMagicBytes then extractLoop data assetName 0 (u16At data 6)
  else none

/-- C1 (code bug evaluation). A bundle written with a 5-byte configuration blob
and a single 3-byte asset named `"a"` cannot be read back: `extract_asset`
assumes a fixed 16-byte pre-table region and ignores the embedded config that
`write_wisp_bundle` places after its 12-byte header, so it misparses the table
and fails to find the entry — the round-trip returns nothing instead of the
original payload. -/
theorem c1_roundtrip_fails :
    extract_asset
        (write_wisp_bundle (mkEntries [([97], [1, 2, 3], 8)]) [[1, 2, 3]]
          [97, 98, 99, 100, 101]) [97] = none ∧
      extract_asset
          (write_wisp_bundle (mkEntries [([97], [1, 2, 3], 8)]) [[1, 2, 3]]
            [97, 98, 99, 100, 101]) [97] ≠ some [1, 2, 3] := by
  refine ⟨by decide, by decide⟩

/-- The scan of `extract_asset` returns the first match: if entry `i + k`
matches and no entry from `i` up to (excluding) `i + k` does, the loop started
at `i` with `fuel` iterations left returns entry `i + k`'s payload. -/
theorem extractLoop_first_match (data assetName : List Nat) :
    ∀ (fuel k i : Nat), k < fuel →
    nameAtEntry data (i + k) = assetName →
    (∀ j, j < k → nameAtEntry data (i + j) ≠ assetName) →
    extractLoop data assetName i fuel = some (payloadAt data (i + k)) := by
  intro fuel
  induction fuel with
  | zero => intro k i hk; omega
  | succ fuel ih =>
    intro k i hk hname hfirst
    match k with
    | 0 =>
      show (if nameAtEntry data i = assetName then _ else _) = _
      rw [if_pos (by simpa using hname), Nat.add_zero]
    | k + 1 =>
      show (if nameAtEntry data i = assetName then _ else _) = _
      rw [if_neg (by simpa using hfirst 0 (by omega))]
      have := ih k (i + 1) (by omega) (by rw [show i + 1 + k = i + (k + 1) by omega]; exact hname)
        (fun j hj => by rw [show i + 1 + j = i + (j + 1) by omega]; exact hfirst (j + 1) (by omega))
      rw [this, show i + 1 + k = i + (k + 1) by omega]

/-- C2 (amended). When the entry table contains one or more entries matching a
name, extraction returns the payload of the FIRST such entry in table order
(not the last): a linear scan returning on the first structural match. -/
theorem c2_first_match_wins (data assetName : List Nat) (k : Nat)
    (hmagic : data.take 4 = wispMagicBytes)
    (hk : k < u16At data 6)
    (hname : nameAtEntry data k = assetName)
    (hfirst : ∀ j, j < k → nameAtEntry data j ≠ assetName) :
    extract_asset data assetName = some (payloadAt data k) := by
  unfold extract_asset
  rw [if_pos hmagic]
  have := extractLoop_first_match data assetName (u16At data 6) k 0 hk
    (by simpa using hname) (fun j hj => by simpa using hfirst j hj)
  simpa using this

/-- A bundle holding two entries with the same name `"a"` and distinct 1-byte
payloads, written with a 4-byte config (the only config size under which the
reader's fixed layout assumption lines up with the writer's). -/
def dupNameBundle : List Nat :=
  write_wisp_bundle (mkEntries [([97], [1], 8), ([97], [2], 8)]) [[1], [2]]
    [10, 20, 30, 40]

/-- Counterexample to C2 as stated: with two entries both named `"a"` in table
order, extraction returns the payload `[1]` of the first entry, not the payload
`[2]` of the last. -/
theorem c2_counterexample :
    nameAtEntry dupNameBundle 0 = [97] ∧ nameAtEntry dupNameBundle 1 = [97] ∧
      payloadAt dupNameBundle 0 = [1] ∧ payloadAt dupNameBundle 1 = [2] ∧
      extract_asset dupNameBundle [97] = some [1] ∧
      extract_asset dupNameBundle [97] ≠ some [2] := by
  refine ⟨by decide, by decide, by decide, by decide, by decide, by decide⟩

/-- Witness for C2 applied to the duplicate-name bundle at the first entry. -/
theorem c2_first_match_wins_witness :
    extract_asset dupNameBundle [97] = some (payloadAt dupNameBundle 0) :=
  c2_first_match_wins dupNameBundle [97] 0 (by decide) (by decide) (by decide)
    (fun j hj => by omega)

/-! ## Configuration requirement (`wisp_builder.collect_assets` lines 38-50,
`wisp_rom_builder.WispROMBuilder` lines 27-29 and 64-113) -/

/-- The configuration discovery and check of `collect_assets`: `config_data`
stays `none` when no `config.yaml`/`config.yml` exists; `if not config_data:
raise FileNotFoundError` also fires on an empty blob. -/
def collect_assets_config : Option (List Nat) → Except Unit (List Nat)
  | none => Except.error ()
  | some d => if d = [] then Except.error () else Except.ok d

/-- One asset entry of `WispROMBuilder.build_rom` (`'<32sIIBB6x'`, lines 82-97):
name truncated to 31 bytes and padded to 32, then offset, size, type, flags and
six zero pad bytes. -/
def rom_entry (name : List Nat) (offset size ty flags : Nat) : List Nat :=
  (name.take 31 ++ List.replicate (32 - (name.take 31).length) 0) ++
    u32le offset ++ u32le size ++ [ty % 256] ++ [flags % 256] ++ List.replicate 6 0

/-- The entry-table/payload accumulation loop of `build_rom` (lines 78-97). -/
def buildRomStep (s : List Nat × List Nat × Nat)
    (asset : List Nat × List Nat × Nat × Nat) : List Nat × List Nat × Nat :=
  (s.1 ++ rom_entry asset.1 s.2.2 asset.2.1.length asset.2.2.1 asset.2.2.2,
    s.2.1 ++ asset.2.1, s.2.2 + asset.2.1.length)

/-- `WispROMBuilder.build_rom` (lines 64-113): 16-byte header
(`'<IIHHI'`: magic, version 1, entry count, config size, reserved), then the
config bytes, entry table and payloads.  The function is total: it builds a
container for any (possibly empty) configuration. -/
def build_rom (assets : List (List Nat × List Nat × Nat × Nat))
    (config_data : List Nat) : List Nat :=
  let s := assets.foldl buildRomStep ([], [], 0)
  u32le 0x50534957 ++ u32le 1 ++ u16le assets.length ++ u16le config_data.length ++
    u32le 0 ++ config_data ++ s.1 ++ s.2.1

/-- Counterexample to C9 as stated: `WispROMBuilder` initializes its config to
the empty string, and `build_rom` with no configuration supplied raises no
error — it produces a complete 67-byte container with configSize 0 for a
one-asset input. -/
theorem c9_counterexample :
    (build_rom [([97], [1, 2, 3], 2, 0)] []).length = 67 ∧
      (build_rom [([97], [1, 2, 3], 2, 0)] []).take 16 =
        u32le 0x50534957 ++ u32le 1 ++ u16le 1 ++ u16le 0 ++ u32le 0 := by
  refine ⟨by decide, by decide⟩

/-- C9 (amended). In the app-folder bundle pipeline, a missing or empty
configuration blob is a hard failure raised in `collect_assets` before any
container is written; the cartridge ROM builder's `build_rom`, however,
accepts an unset configuration and emits a container whose header declares
configSize 0. -/
theorem c9_config_requirement (c : Option (List Nat))
    (h : c = none ∨ c = some []) :
    collect_assets_config c = Except.error () ∧
      (build_rom [] []).take 16 =
        u32le 0x50534957 ++ u32le 1 ++ u16le 0 ++ u16le 0 ++ u32le 0 := by
  constructor
  · rcases h with h | h <;> rw [h] <;> rfl
  · decide

/-- Witness for C9 at an absent configuration. -/
theorem c9_config_requirement_witness :
    collect_assets_config none = Except.error () ∧
      (build_rom [] []).take 16 =
        u32le 0x50534957 ++ u32le 1 ++ u16le 0 ++ u16le 0 ++ u32le 0 :=
  c9_config_requirement none (Or.inl rfl)

/-! ## Keyed record database builder (`wisp_rom_builder_v2.py`) -/

/-- An `items` record (fields as read by `_pack_item`; `type` is `ty`). -/
structure Item where
  id : Nat
  name : List Nat
  ty : Nat
  rarity : Nat
  value : Nat
  properties : Nat
  description : List Nat

/-- A `quests` record (fields as read in `generate_rom`, lines 103-114). -/
structure Quest where
  id : Nat
  title : List Nat
  required_level : Nat
  description : List Nat

/-- A `maps` record (lines 117-125). -/
structure MapDef where
  id : Nat
  name : List Nat
  width : Nat
  height : Nat

/-- A `pokemon` record (lines 128-144). -/
structure Pokemon where
  id : Nat
  name : List Nat
  type1 : Nat
  type2 : Nat
  base_hp : Nat
  base_attack : Nat
  base_defense : Nat
  base_speed : Nat

/-- The builder state: record collections plus the string pool, an
insertion-ordered dict from string value to its assigned integer. -/
structure WispROMBuilderV2 where
  items : List Item
  quests : List Quest
  maps : List MapDef
  pokemon : List Pokemon
  string_pool : List (List Nat × Nat)

/-- `WispROMBuilderV2.add_string` (lines 58-65): deduplicate by exact value;
a new string is assigned `len(self.string_pool)` — the COUNT of pooled strings,
i.e. its position in first-assigned order. -/
def add_string (pool : List (List Nat × Nat)) (text : List Nat) :
    List (List Nat × Nat) × Nat :=
  match pool.find? (fun p => p.1 == text) with
  | some p => (pool, p.2)
  | none => (pool ++ [(text, pool.length)], pool.length)

/-- The string pool section of `generate_rom` (lines 80-86): each pooled string
null-terminated, in order of assigned value.  `add_string` assigns values equal
to list positions, so the insertion-ordered pool list is already
`sorted(..., key=lambda x: self.string_pool[x])` order. -/
def stringPoolData (pool : List (List Nat × Nat)) : List Nat :=
  pool.flatMap (fun p => p.1 ++ [0])

/-- `WispROMBuilderV2._make_key` (lines 170-172). -/
def make_key (namespace_ category id : Nat) : Nat :=
  (namespace_ <<< 24) ||| (category <<< 16) ||| id

/-- Entry header `struct.pack('<LBBH', key, 0x06, 0x01, len(entry_data))`. -/
def romEntryHeader (key size : Nat) : List Nat :=
  u32le key ++ [0x06, 0x01] ++ u16le size

/-- `WispROMBuilderV2._pack_item` (lines 174-186), threading the string pool
through the two `add_string` calls. -/
def pack_item (pool : List (List Nat × Nat)) (item : Item) :
    List (List Nat × Nat) × List Nat :=
  let r1 := add_string pool item.name
  let r2 := add_string r1.1 item.description
  (r2.1, u16le r1.2 ++ [item.ty % 256, item.rarity % 256] ++ u16le item.value ++
    u16le item.properties ++ u16le r2.2)

/-- Loop body for items (lines 92-100).  The fold state is
(string pool, accumulated entry bytes, entry count). -/
def itemStep (s : List (List Nat × Nat) × List Nat × Nat) (item : Item) :
    List (List Nat × Nat) × List Nat × Nat :=
  let p := pack_item s.1 item
  (p.1, s.2.1 ++ romEntryHeader (make_key 0x01 0x01 item.id) p.2.length ++ p.2, s.2.2 + 1)

/-- Loop body for quests (lines 103-114). -/
def questStep (s : List (List Nat × Nat) × List Nat × Nat) (q : Quest) :
    List (List Nat × Nat) × List Nat × Nat :=
  let r1 := add_string s.1 q.title
  let r2 := add_string r1.1 q.description
  let entry_data := u16le r1.2 ++ u16le q.required_level ++ u16le r2.2
  (r2.1, s.2.1 ++ romEntryHeader (make_key 0x01 0x02 q.id) entry_data.length ++ entry_data,
    s.2.2 + 1)

/-- Loop body for maps (lines 117-125). -/
def mapStep (s : List (List Nat × Nat) × List Nat × Nat) (m : MapDef) :
    List (List Nat × Nat) × List Nat × Nat :=
  let r1 := add_string s.1 m.name
  let entry_data := u16le r1.2 ++ u16le m.width ++ u16le m.height
  (r1.1, s.2.1 ++ romEntryHeader (make_key 0x03 0x04 m.id) entry_data.length ++ entry_data,
    s.2.2 + 1)

/-- Loop body for pokemon (lines 128-144). -/
def pokeStep (s : List (List Nat × Nat) × List Nat × Nat) (p : Pokemon) :
    List (List Nat × Nat) × List Nat × Nat :=
  let r1 := add_string s.1 p.name
  let entry_data := u16le r1.2 ++ [p.type1 % 256, p.type2 % 256] ++ u16le p.base_hp ++
    u16le p.base_attack ++ u16le p.base_defense ++ u16le p.base_speed
  (r1.1, s.2.1 ++ romEntryHeader (make_key 0x01 0x07 p.id) entry_data.length ++ entry_data,
    s.2.2 + 1)

/-- The final fold state of `generate_rom` over all four record collections,
starting from the pool as it stood when the string section was serialized. -/
def generateRomState (b : WispROMBuilderV2) : List (List Nat × Nat) × List Nat × Nat :=
  b.pokemon.foldl pokeStep
    (b.maps.foldl mapStep
      (b.quests.foldl questStep
        (b.items.foldl itemStep (b.string_pool, [], 0))))

/-- `struct.pack('<HLLLL6L', ...)` (line 152): the format holds 11 fields
(1×H + 4×L + 6×L); Python raises `struct.error` when given any other number of
values.  Modelled as `none` on arity mismatch. -/
def packHLLLL6L (args : List Nat) : Option (List Nat) :=
  match args with
  | [a, b, c, d, e, f, g, h, i, j, k] =>
    some (u16le a ++ u32le b ++ u32le c ++ u32le d ++ u32le e ++ u32le f ++ u32le g ++
      u32le h ++ u32le i ++ u32le j ++ u32le k)
  | _ => none

/-- `WispROMBuilderV2.generate_rom` (lines 67-168).  The string-pool section is
serialized from the pool as it stands on entry (line 82), BEFORE the record
loops intern their strings; the final header pack supplies 12 values
(entry count, data size, checksum, lastModified, freeSpace, fragmentation and
six reserved zeros) to the 11-field format `'<HLLLL6L'`, so Python raises
`struct.error` — modelled as `none`.  On the (unreachable) success path the
header bytes are spliced over `rom_data[6:32]`. -/
def generate_rom (b : WispROMBuilderV2) : Option (List Nat) :=
  let string_data := stringPoolData b.string_pool
  let s := generateRomState b
  let entriesData := s.2.1
  let data_size := string_data.length + entriesData.length
  let checksum := ((string_data ++ entriesData).foldr (fun x a => x + a) 0) % 4294967296
  match packHLLLL6L [s.2.2, data_size, checksum, 0, data_size - string_data.length, 0,
      0, 0, 0, 0, 0, 0] with
  | none => none
  | some header_data =>
    some ([87, 82, 80, 86] ++ u16le 2 ++ header_data ++ string_data ++ entriesData)

/-- Modelled from the spec's words for comparison (C8): the byte offset of the
`i`-th pooled string's first byte within a serialized pool of null-terminated
strings. -/
def specPoolByteOffset (strs : List (List Nat)) (i : Nat) : Nat :=
  ((strs.take i).map (fun s => s.length + 1)).sum

/-- A fresh builder holding one quest with title `"ab"` and description `"cd"`. -/
def exampleQuestC8 : Quest :=
  { id := 1, title := [97, 98], required_level := 5, description := [99, 100] }

def exampleBuilderC8 : WispROMBuilderV2 :=
  { items := [], quests := [exampleQuestC8], maps := [], pokemon := [],
    string_pool := [] }

/-- C8 (code bug evaluation).  On a fresh build with one quest
(title `"ab"`, description `"cd"`): the string-pool section serialized into the
output is empty, because it is produced from the pool BEFORE the entry loops
intern any string; the quest entry stores pool indices 0 and 1 for its two
string fields, not byte offsets (the description's first byte would sit at byte
offset 3 of a pool holding both strings); and the build in fact never completes
— the final header pack passes 12 values to the 11-field `'<HLLLL6L'` format
and raises. -/
theorem c8_string_pool_eval :
    stringPoolData exampleBuilderC8.string_pool = [] ∧
      (generateRomState exampleBuilderC8).2.1 =
        romEntryHeader (make_key 0x01 0x02 1) 6 ++ (u16le 0 ++ u16le 5 ++ u16le 1) ∧
      stringPoolData (generateRomState exampleBuilderC8).1 = [97, 98, 0, 99, 100, 0] ∧
      specPoolByteOffset [[97, 98], [99, 100]] 1 = 3 ∧
      (3 : Nat) ≠ 1 ∧
      generate_rom exampleBuilderC8 = none := by
  refine ⟨by decide, by decide, by decide, by decide, by decide, by decide⟩

/-! ## Sprite compiler pixel quantization (`png_to_spr_standalone.py`)

The pixel channels come from `np.array(img)` and are numpy `uint8` scalars,
and the palette entries are Python ints small enough that numpy keeps every
mixed operation in `uint8`: each arithmetic result wraps modulo 256.  Right
shifts and `&`/`|` of byte values cannot exceed 255, so only the left shifts,
subtractions, products and sums need an explicit `% 256`. -/

/-- The sentinel/magic skip test of `find_closest_color_index` (line 84):
`color >= 0x1000 and color <= 0x1111`, over the exact Python-int palette
entries. -/
def isMagicColor (c : Nat) : Bool := decide (0x1000 ≤ c) && decide (c ≤ 0x1111)

/-- RGB565 composition of the sprite compiler's visible-pixel path
(lines 173-177) in `uint8` arithmetic: `r_565 << 11` wraps to 0 and
`g_565 << 5` wraps modulo 256, so the result is an 8-bit remnant, not the
16-bit RGB565 code. -/
def spriteRgb565 (r g b : Nat) : Nat :=
  let r_565 := ((r % 256) >>> 3) &&& 0x1F
  let g_565 := ((g % 256) >>> 2) &&& 0x3F
  let b_565 := ((b % 256) >>> 3) &&& 0x1F
  ((r_565 <<< 11) % 256) ||| ((g_565 <<< 5) % 256) ||| b_565

/-- Squared channel distance of `find_closest_color_index` (lines 74-96) in
`uint8` arithmetic: the target components come from the wrapped byte
(`target >> 11` is always 0), the differences wrap on negative values, and
the squares and the running sums wrap modulo 256.  The palette entry `c` is an
exact Python int, so its components are exact. -/
def colorDist (target c : Nat) : Nat :=
  let target_r := ((target % 256) >>> 11) &&& 0x1F
  let target_g := ((target % 256) >>> 5) &&& 0x3F
  let target_b := (target % 256) &&& 0x1F
  let r := (c >>> 11) &&& 0x1F
  let g := (c >>> 5) &&& 0x3F
  let b := c &&& 0x1F
  let dr := (target_r + 256 - r) % 256
  let dg := (target_g + 256 - g) % 256
  let db := (target_b + 256 - b) % 256
  ((dr * dr % 256 + dg * dg % 256) % 256 + db * db % 256) % 256

/-- `distance < best_distance` with `best_distance` initially `float('inf')`,
modelled as `none`. -/
def distLtBest (d : Nat) : Option Nat → Bool
  | none => true
  | some best => decide (d < best)

/-- The `for i, color in enumerate(...)` loop of `find_closest_color_index`
(lines 79-101): skip magic entries, update `(best_index, best_distance)` on a
strictly smaller distance. -/
def fccLoop (target : Nat) : List Nat → Nat → Nat → Option Nat → Nat
  | [], _, best_index, _ => best_index
  | c :: cs, i, best_index, best_distance =>
    if isMagicColor c then fccLoop target cs (i + 1) best_index best_distance
    else
      if distLtBest (colorDist target c) best_distance then
        fccLoop target cs (i + 1) i (some (colorDist target c))
      else fccLoop target cs (i + 1) best_index best_distance

/-- `find_closest_color_index` (lines 68-102); an unavailable palette (`not
WLUT_DATA`) behaves like the empty color list, returning the fallback 0. -/
def find_closest_color_index (colors : List Nat) (target : Nat) : Nat :=
  fccLoop target colors 0 0 none

/-- `find_closest_transparent_index` (lines 54-66): first entry equal to
`0x1000`, else fallback 0 (exact comparison of Python ints). -/
def fctiLoop : List Nat → Nat → Nat
  | [], _ => 0
  | c :: cs, i => if c = 0x1000 then i else fctiLoop cs (i + 1)

def find_closest_transparent_index (colors : List Nat) : Nat :=
  fctiLoop colors 0

/-- Per-pixel classification of `compile_png_to_spr` (lines 163-181): the 50%
alpha cutoff sends a pixel either to the transparent lookup or to the
nearest-color search on its (wrapped) RGB565 code. -/
def pixel_color_index (colors : List Nat) (p : Nat × Nat × Nat × Nat) : Nat :=
  if p.2.2.2 ≤ 127 then find_closest_transparent_index colors
  else find_closest_color_index colors (spriteRgb565 p.1 p.2.1 p.2.2.1)

/-- The row-major color-index data of a sprite (the `color_data` list). -/
def compile_color_data (colors : List Nat) (pixels : List (Nat × Nat × Nat × Nat)) :
    List Nat :=
  pixels.map (pixel_color_index colors)

/-- C6 (code bug evaluation).  The claim — and the code's own comments
("Convert RGB to RGB565 format", "Calculate Euclidean distance in RGB space") —
describe a true 16-bit RGB565 target and an exact squared-distance argmin, but
the pixel channels are numpy `uint8` scalars, so the arithmetic wraps modulo
256: the opaque red pixel's target collapses to byte 0 (its 5-6-5 truncation
is 0xF800), its wrapped distances to the palette
`[0xF800, 0x001F, 0xFFFF, 0x1000]` are 193, 193, 3 — nearest becomes the white
entry at index 2 — and the spec's 2×2 scenario compiles to `[2, 3, 1, 2]`
instead of the claimed `[0, 3, 1, 2]`. -/
theorem c6_uint8_wrap_eval :
    spriteRgb565 255 0 0 = 0 ∧
      rgb888_to_rgb565 255 0 0 = 0xF800 ∧
      colorDist (spriteRgb565 255 0 0) 0xF800 = 193 ∧
      colorDist (spriteRgb565 255 0 0) 0x001F = 193 ∧
      colorDist (spriteRgb565 255 0 0) 0xFFFF = 3 ∧
      compile_color_data [0xF800, 0x001F, 0xFFFF, 0x1000]
          [(255, 0, 0, 255), (0, 255, 0, 64), (0, 0, 255, 255), (255, 255, 255, 255)] =
        [2, 3, 1, 2] ∧
      ([2, 3, 1, 2] : List Nat) ≠ [0, 3, 1, 2] := by
  refine ⟨by decide, by decide, by decide, by decide, by decide, by decide, by decide⟩

end Wisp
